import Mathlib

/-
Verification of the ai-name-buddy keyword/abbreviation CLI.

The store (SQLite dictionary.db) is modelled as a list of rows; a snapshot of
type Option (List Word) is the view one database.py helper obtains: none means
create_connection failed (sqlite3.connect raised), some rows is a live view.
Each helper in database.py opens its own connection, so each call in one
session gets its own snapshot; this is what lets a concurrent writer appear
between two calls.
-/

/-- Word is the pydantic model of models.py: keyword and abbreviation are
required strings, description is Optional[str]. -/
structure Word where
  keyword : String
  abbreviation : String
  description : Option String
deriving DecidableEq

/-- check_keyword_exists from database.py: if create_connection returns None
the function returns False; otherwise it runs SELECT 1 FROM words WHERE
keyword = ? and reports whether a row came back. -/
def check_keyword_exists (db : Option (List Word)) (keyword : String) : Bool :=
  match db with
  | none => false
  | some rows => rows.any (fun r => r.keyword == keyword)

/-- check_abbreviation_exists from database.py: same shape as
check_keyword_exists, over the abbreviation column. -/
def check_abbreviation_exists (db : Option (List Word)) (abbreviation : String) : Bool :=
  match db with
  | none => false
  | some rows => rows.any (fun r => r.abbreviation == abbreviation)

/-- insert_word from database.py: returns False when the connection cannot be
created; the INSERT hits the UNIQUE constraints on keyword and abbreviation,
so a duplicate raises sqlite3.IntegrityError, which the except sqlite3.Error
branch turns into False with the store unchanged; otherwise the row is
committed and True is returned. The second component is the store after the
call. -/
def insert_word (db : Option (List Word)) (w : Word) : Bool × Option (List Word) :=
  match db with
  | none => (false, none)
  | some rows =>
    if rows.any (fun r => r.keyword == w.keyword || r.abbreviation == w.abbreviation) then
      (false, some rows)
    else
      (true, some (rows ++ [w]))

/-- The outcome of one agent_executor.invoke call as main.py observes it:
invokeError is an exception escaping invoke (caught at main.py line 80),
unparsable means json.loads raised on the output text (caught by the same
except), and parsed carries the values of output_json.get for the
abbreviation and description keys (none when the key is absent). -/
inductive AgentOutput where
  | invokeError
  | unparsable
  | parsed (abbr : Option String) (desc : Option String)
deriving DecidableEq

/-- Python truthiness of output_json.get("abbreviation") as tested by the
if abbr: at main.py line 49: None and the empty string are falsy. -/
def truthy : Option String → Bool
  | none => false
  | some s => !(s == "")

/-- One observable step of a session of the main.py loop, in the order the
loop performs them. -/
inductive Event where
  | checkKeyword
  | generateCall
  | checkAbbr
  | confirmPrompt
  | insertCall
  | vectorAdd
deriving DecidableEq

/-- How one iteration of the main.py while loop ends for a non-exit keyword. -/
inductive Outcome where
  | alreadyExists
  | agentError
  | noAbbreviation
  | abbreviationTaken
  | notSaved
  | savedBoth
  | vectorStoreError
  | insertFailed
deriving DecidableEq

/-- The observable result of one session: its outcome, the ordered trace of
events, the dictionary store after the session and the vector store after the
session. -/
structure SessionResult where
  outcome : Outcome
  events : List Event
  finalDb : Option (List Word)
  finalVstore : List Word
deriving DecidableEq

/-- One iteration of the main.py while loop (lines 31 to 84) for a keyword
that is not the exit sentinel. kwDb, abbrDb and insDb are the store snapshots
seen by check_keyword_exists, check_abbreviation_exists and insert_word, each
of which opens its own connection. save_choice is the confirm answer after
strip().lower(). vectorOk is false when add_word_to_vectorstore raises (that
exception is caught at main.py line 69). -/
def session (kwDb abbrDb insDb : Option (List Word)) (vstore : List Word)
    (user_keyword : String) (agent : AgentOutput) (save_choice : String)
    (vectorOk : Bool) : SessionResult :=
  if check_keyword_exists kwDb user_keyword then
    ⟨Outcome.alreadyExists, [Event.checkKeyword], kwDb, vstore⟩
  else
    match agent with
    | AgentOutput.invokeError =>
      ⟨Outcome.agentError, [Event.checkKeyword, Event.generateCall], kwDb, vstore⟩
    | AgentOutput.unparsable =>
      ⟨Outcome.agentError, [Event.checkKeyword, Event.generateCall], kwDb, vstore⟩
    | AgentOutput.parsed abbr desc =>
      match abbr with
      | none =>
        ⟨Outcome.noAbbreviation, [Event.checkKeyword, Event.generateCall], kwDb, vstore⟩
      | some a =>
        if a == "" then
          ⟨Outcome.noAbbreviation, [Event.checkKeyword, Event.generateCall], kwDb, vstore⟩
        else if check_abbreviation_exists abbrDb a then
          ⟨Outcome.abbreviationTaken,
            [Event.checkKeyword, Event.generateCall, Event.checkAbbr], abbrDb, vstore⟩
        else if save_choice == "yes" || save_choice == "y" then
          match insert_word insDb ⟨user_keyword, a, desc⟩ with
          | (true, db2) =>
            if vectorOk then
              ⟨Outcome.savedBoth,
                [Event.checkKeyword, Event.generateCall, Event.checkAbbr,
                  Event.confirmPrompt, Event.insertCall, Event.vectorAdd],
                db2, vstore ++ [⟨user_keyword, a, desc⟩]⟩
            else
              ⟨Outcome.vectorStoreError,
                [Event.checkKeyword, Event.generateCall, Event.checkAbbr,
                  Event.confirmPrompt, Event.insertCall, Event.vectorAdd],
                db2, vstore⟩
          | (false, db2) =>
            ⟨Outcome.insertFailed,
              [Event.checkKeyword, Event.generateCall, Event.checkAbbr,
                Event.confirmPrompt, Event.insertCall],
              db2, vstore⟩
        else
          ⟨Outcome.notSaved,
            [Event.checkKeyword, Event.generateCall, Event.checkAbbr,
              Event.confirmPrompt],
            abbrDb, vstore⟩

/-- C1: when the uniqueness check reports that the keyword already exists, the
session ends with the alreadyExists outcome and the generator
(agent_executor.invoke) is never called in that session. -/
theorem keyword_exists_short_circuits
    (kwDb abbrDb insDb : Option (List Word)) (vstore : List Word)
    (kw : String) (agent : AgentOutput) (save : String) (v : Bool)
    (h : check_keyword_exists kwDb kw = true) :
    (session kwDb abbrDb insDb vstore kw agent save v).outcome = Outcome.alreadyExists ∧
    Event.generateCall ∉ (session kwDb abbrDb insDb vstore kw agent save v).events := by
  simp [session, h]

/-- C1 witness: a concrete store containing the keyword Closing. -/
theorem keyword_exists_short_circuits_witness :
    check_keyword_exists (some [⟨"Closing", "Clsg", none⟩]) "Closing" = true ∧
    (session (some [⟨"Closing", "Clsg", none⟩]) (some []) (some []) [] "Closing"
        (AgentOutput.parsed (some "Clsg") none) "yes" true).outcome = Outcome.alreadyExists ∧
    Event.generateCall ∉ (session (some [⟨"Closing", "Clsg", none⟩]) (some []) (some [])
        [] "Closing" (AgentOutput.parsed (some "Clsg") none) "yes" true).events :=
  ⟨by decide,
    keyword_exists_short_circuits (some [⟨"Closing", "Clsg", none⟩]) (some []) (some [])
      [] "Closing" (AgentOutput.parsed (some "Clsg") none) "yes" true (by decide)⟩

/-- C2 counterexample: with the store unreachable at the keyword check
(create_connection returned None), check_keyword_exists reports false, i.e.
the keyword is reported as merely not existing, and the session proceeds to
generation and all the way to a persisted savedBoth outcome; no error is
surfaced and the session is not aborted. -/
theorem store_unavailable_not_fatal_cex :
    check_keyword_exists none "Closing" = false ∧
    Event.generateCall ∈ (session none (some []) (some []) [] "Closing"
        (AgentOutput.parsed (some "Clsg") (some "d")) "yes" true).events ∧
    (session none (some []) (some []) [] "Closing"
        (AgentOutput.parsed (some "Clsg") (some "d")) "yes" true).outcome
      = Outcome.savedBoth := by
  decide

/-- C2 amended: when the underlying store cannot be reached, the uniqueness
checks return false (the value is reported as not existing) and the session
proceeds to generation on that basis; the connection failure is never
surfaced to the caller as an error. -/
theorem store_unavailable_reported_as_absent
    (abbrDb insDb : Option (List Word)) (vstore : List Word) (kw a save : String)
    (agent : AgentOutput) (v : Bool) :
    check_keyword_exists none kw = false ∧
    check_abbreviation_exists none a = false ∧
    Event.generateCall ∈ (session none abbrDb insDb vstore kw agent save v).events := by
  refine ⟨rfl, rfl, ?_⟩
  cases agent with
  | invokeError => simp [session, check_keyword_exists]
  | unparsable => simp [session, check_keyword_exists]
  | parsed abbr desc =>
    cases abbr with
    | none => simp [session, check_keyword_exists]
    | some s =>
      by_cases h1 : (s == "") = true
      · simp [session, check_keyword_exists, h1]
      · by_cases h2 : check_abbreviation_exists abbrDb s = true
        · simp [session, check_keyword_exists, h1, h2]
        · by_cases h3 : (save == "yes" || save == "y") = true
          · rcases hins : insert_word insDb ⟨kw, s, desc⟩ with ⟨b, db2⟩
            cases b
            · simp [session, check_keyword_exists, h1, h2, h3, hins]
            · cases v <;> simp [session, check_keyword_exists, h1, h2, h3, hins]
          · simp [session, check_keyword_exists, h1, h2, h3]

/-- Formalization of the C4 ordering property on a session trace: between the
confirm prompt and the insert there is a fresh store existence check on the
abbreviation. It scans the segment of the trace after the confirm prompt and
before the insert call. -/
def freshCheckBeforePersist (es : List Event) : Bool :=
  ((es.dropWhile (fun e => !(e == Event.confirmPrompt))).takeWhile
      (fun e => !(e == Event.insertCall))).contains Event.checkAbbr

/-- C4 counterexample: a session reaching the persisted savedBoth outcome
whose trace has no store existence check between the confirm prompt and the
insert: the re-validation at main.py line 53 runs before the confirm prompt
at line 58, and after the user confirms, insert_word runs with no fresh
existence check. -/
theorem no_recheck_after_confirm_cex :
    (session (some []) (some []) (some []) [] "Closing"
        (AgentOutput.parsed (some "Clsg") (some "d")) "yes" true).outcome
      = Outcome.savedBoth ∧
    freshCheckBeforePersist (session (some []) (some []) (some []) [] "Closing"
        (AgentOutput.parsed (some "Clsg") (some "d")) "yes" true).events = false := by
  decide

/-- C4 amended: in every session that reaches the final persist, the
abbreviation is re-validated against the store after generation but before
the confirm prompt; no fresh existence check happens between the user
confirmation and the insert (the UNIQUE constraint inside insert_word is the
only guard there). -/
theorem recheck_before_confirm_not_before_persist
    (kwDb abbrDb insDb : Option (List Word)) (vstore : List Word)
    (kw save : String) (agent : AgentOutput) (v : Bool)
    (h : Event.insertCall ∈ (session kwDb abbrDb insDb vstore kw agent save v).events) :
    Event.checkAbbr ∈ ((session kwDb abbrDb insDb vstore kw agent save v).events.takeWhile
        (fun e => !(e == Event.confirmPrompt))) ∧
    freshCheckBeforePersist (session kwDb abbrDb insDb vstore kw agent save v).events
      = false := by
  by_cases h0 : check_keyword_exists kwDb kw = true
  · simp [session, h0] at h
  · cases agent with
    | invokeError => simp [session, h0] at h
    | unparsable => simp [session, h0] at h
    | parsed abbr desc =>
      cases abbr with
      | none => simp [session, h0] at h
      | some s =>
        by_cases h1 : (s == "") = true
        · simp [session, h0, h1] at h
        · by_cases h2 : check_abbreviation_exists abbrDb s = true
          · simp [session, h0, h1, h2] at h
          · by_cases h3 : (save == "yes" || save == "y") = true
            · rcases hins : insert_word insDb ⟨kw, s, desc⟩ with ⟨b, db2⟩
              cases b
              · simp [session, h0, h1, h2, h3, hins, freshCheckBeforePersist]
              · cases v <;>
                  simp [session, h0, h1, h2, h3, hins, freshCheckBeforePersist]
            · simp [session, h0, h1, h2, h3] at h

/-- C4 amended witness: concrete session reaching the insert. -/
theorem recheck_before_confirm_not_before_persist_witness :
    Event.insertCall ∈ (session (some []) (some []) (some []) [] "Closing"
        (AgentOutput.parsed (some "Clsg") (some "d")) "yes" true).events ∧
    Event.checkAbbr ∈ ((session (some []) (some []) (some []) [] "Closing"
        (AgentOutput.parsed (some "Clsg") (some "d")) "yes" true).events.takeWhile
        (fun e => !(e == Event.confirmPrompt))) ∧
    freshCheckBeforePersist (session (some []) (some []) (some []) [] "Closing"
        (AgentOutput.parsed (some "Clsg") (some "d")) "yes" true).events = false :=
  ⟨by decide,
    recheck_before_confirm_not_before_persist (some []) (some []) (some []) [] "Closing"
      "yes" (AgentOutput.parsed (some "Clsg") (some "d")) true (by decide)⟩

/-- C5 counterexample: a Generator result that json.loads cannot parse ends
the session at once with the agentError outcome after exactly one generator
call, and a result whose abbreviation field is missing ends it with the
noAbbreviation outcome; neither consumes a retry attempt nor leads to a
second generation attempt, so a malformed candidate is fatal to the session
on its first occurrence. -/
theorem malformed_fatal_first_occurrence_cex :
    session (some []) (some []) (some []) [] "Closing" AgentOutput.unparsable "yes" true
      = ⟨Outcome.agentError, [Event.checkKeyword, Event.generateCall], some [], []⟩ ∧
    (session (some []) (some []) (some []) [] "Closing"
        (AgentOutput.parsed none none) "yes" true).outcome = Outcome.noAbbreviation := by
  decide

/-- C5 amended: a malformed Generator result (unparsable output, or output
whose abbreviation field is missing or empty) ends the session immediately
with an error outcome, exactly like a Generator failure: the trace stops at
the single generator call, nothing is persisted, and no retry is attempted —
the controller performs no Retry transitions at all. -/
theorem malformed_ends_session_like_generation_failure
    (kwDb abbrDb insDb : Option (List Word)) (vstore : List Word)
    (kw save : String) (v : Bool) (desc : Option String)
    (h : check_keyword_exists kwDb kw = false) :
    session kwDb abbrDb insDb vstore kw AgentOutput.unparsable save v
      = ⟨Outcome.agentError, [Event.checkKeyword, Event.generateCall], kwDb, vstore⟩ ∧
    session kwDb abbrDb insDb vstore kw AgentOutput.unparsable save v
      = session kwDb abbrDb insDb vstore kw AgentOutput.invokeError save v ∧
    session kwDb abbrDb insDb vstore kw (AgentOutput.parsed none desc) save v
      = ⟨Outcome.noAbbreviation, [Event.checkKeyword, Event.generateCall], kwDb, vstore⟩ ∧
    session kwDb abbrDb insDb vstore kw (AgentOutput.parsed (some "") desc) save v
      = ⟨Outcome.noAbbreviation, [Event.checkKeyword, Event.generateCall], kwDb, vstore⟩ := by
  refine ⟨?_, ?_, ?_, ?_⟩ <;> simp [session, h]

/-- C5 amended witness: empty store, keyword Closing. -/
theorem malformed_ends_session_like_generation_failure_witness :
    check_keyword_exists (some []) "Closing" = false ∧
    (session (some []) (some []) (some []) [] "Closing" AgentOutput.unparsable "yes" true
      = ⟨Outcome.agentError, [Event.checkKeyword, Event.generateCall], some [], []⟩ ∧
    session (some []) (some []) (some []) [] "Closing" AgentOutput.unparsable "yes" true
      = session (some []) (some []) (some []) [] "Closing" AgentOutput.invokeError "yes" true ∧
    session (some []) (some []) (some []) [] "Closing"
        (AgentOutput.parsed none (some "d")) "yes" true
      = ⟨Outcome.noAbbreviation, [Event.checkKeyword, Event.generateCall], some [], []⟩ ∧
    session (some []) (some []) (some []) [] "Closing"
        (AgentOutput.parsed (some "") (some "d")) "yes" true
      = ⟨Outcome.noAbbreviation, [Event.checkKeyword, Event.generateCall], some [], []⟩) :=
  ⟨by decide,
    malformed_ends_session_like_generation_failure (some []) (some []) (some []) []
      "Closing" "yes" true (some "d") (by decide)⟩

/-- C7 counterexample: a duplicate hitting the UNIQUE constraint at persist
time (the insert snapshot already holds the abbreviation Clsg, inserted
concurrently after the check snapshot) produces the same generic
insertFailed outcome — main.py prints Failed to add word to database — as a
plain connection failure at insert time; nothing distinguishes the
concurrent-duplicate case for the caller. -/
theorem duplicate_key_folded_into_generic_failure_cex :
    (session (some []) (some []) (some [⟨"Other", "Clsg", none⟩]) [] "Closing"
        (AgentOutput.parsed (some "Clsg") (some "d")) "yes" true).outcome
      = Outcome.insertFailed ∧
    (session (some []) (some []) none [] "Closing"
        (AgentOutput.parsed (some "Clsg") (some "d")) "yes" true).outcome
      = Outcome.insertFailed := by
  decide

/-- C7 amended: when Store.insert hits the UNIQUE constraint at final persist
time despite the earlier uniqueness pass, insert_word returns False and the
session ends with the generic insertFailed outcome — the very same outcome
any other database error at insert time produces — and the vector store is
not touched; the duplicate is not surfaced as a distinct
taken-concurrently outcome. -/
theorem duplicate_at_persist_generic_failure
    (kwDb abbrDb : Option (List Word)) (rows vstore : List Word)
    (kw a : String) (desc : Option String) (save : String) (v : Bool)
    (h0 : check_keyword_exists kwDb kw = false)
    (h1 : (a == "") = false)
    (h2 : check_abbreviation_exists abbrDb a = false)
    (h3 : (save == "yes" || save == "y") = true)
    (hdup : rows.any (fun r => r.keyword == kw || r.abbreviation == a) = true) :
    (session kwDb abbrDb (some rows) vstore kw
        (AgentOutput.parsed (some a) desc) save v).outcome = Outcome.insertFailed ∧
    (session kwDb abbrDb none vstore kw
        (AgentOutput.parsed (some a) desc) save v).outcome = Outcome.insertFailed ∧
    Event.vectorAdd ∉ (session kwDb abbrDb (some rows) vstore kw
        (AgentOutput.parsed (some a) desc) save v).events := by
  refine ⟨?_, ?_, ?_⟩ <;> simp [session, insert_word, h0, h1, h2, h3, hdup]

/-- C7 amended witness: the abbreviation Clsg is taken concurrently between
the check snapshot and the insert snapshot. -/
theorem duplicate_at_persist_generic_failure_witness :
    check_keyword_exists (some []) "Closing" = false ∧
    ("Clsg" == "") = false ∧
    check_abbreviation_exists (some []) "Clsg" = false ∧
    (("yes" == "yes") || ("yes" == "y")) = true ∧
    [(⟨"Other", "Clsg", none⟩ : Word)].any
      (fun r => r.keyword == "Closing" || r.abbreviation == "Clsg") = true ∧
    ((session (some []) (some []) (some [⟨"Other", "Clsg", none⟩]) [] "Closing"
        (AgentOutput.parsed (some "Clsg") (some "d")) "yes" true).outcome
      = Outcome.insertFailed ∧
    (session (some []) (some []) none [] "Closing"
        (AgentOutput.parsed (some "Clsg") (some "d")) "yes" true).outcome
      = Outcome.insertFailed ∧
    Event.vectorAdd ∉ (session (some []) (some []) (some [⟨"Other", "Clsg", none⟩]) []
        "Closing" (AgentOutput.parsed (some "Clsg") (some "d")) "yes" true).events) :=
  ⟨by decide, by decide, by decide, by decide, by decide,
    duplicate_at_persist_generic_failure (some []) (some []) [⟨"Other", "Clsg", none⟩] []
      "Closing" "Clsg" (some "d") "yes" true (by decide) (by decide) (by decide)
      (by decide) (by decide)⟩

/-- validCasing embeds the casing rule stated in the GENERAL RULES block of
the prompt in agents.py (line 57): the initial letter must be uppercase and
no other uppercase letter is permitted, so ESC and esc are invalid and Esc is
valid. The rule appears only as prompt text; no code validates it. -/
def validCasing (s : String) : Bool :=
  match s.data with
  | [] => false
  | c :: rest => c.isUpper && rest.all (fun d => !d.isUpper)

/-- C8 counterexample: the candidate abbreviation ESC violates the casing
rule, yet the session accepts it as final: it passes the uniqueness check,
reaches the confirm prompt and is persisted with the savedBoth outcome — it
is not treated as a collision and forces no retry. -/
theorem casing_rule_unenforced_cex :
    validCasing "ESC" = false ∧
    (session (some []) (some []) (some []) [] "Escape"
        (AgentOutput.parsed (some "ESC") (some "d")) "yes" true).outcome
      = Outcome.savedBoth ∧
    Event.insertCall ∈ (session (some []) (some []) (some []) [] "Escape"
        (AgentOutput.parsed (some "ESC") (some "d")) "yes" true).events := by
  decide

/-- C8 amended: the casing rule exists only as an instruction inside the
generation prompt; the controller never validates it, so any non-empty
candidate abbreviation that passes the uniqueness check reaches the confirm
prompt and is not treated as a collision, even when it violates the casing
rule. -/
theorem casing_violations_accepted
    (kwDb abbrDb insDb : Option (List Word)) (vstore : List Word)
    (kw a : String) (desc : Option String) (save : String) (v : Bool)
    (h0 : check_keyword_exists kwDb kw = false)
    (h1 : (a == "") = false)
    (h2 : check_abbreviation_exists abbrDb a = false)
    (_hc : validCasing a = false) :
    Event.confirmPrompt ∈ (session kwDb abbrDb insDb vstore kw
        (AgentOutput.parsed (some a) desc) save v).events ∧
    (session kwDb abbrDb insDb vstore kw
        (AgentOutput.parsed (some a) desc) save v).outcome
      ≠ Outcome.abbreviationTaken := by
  by_cases h3 : (save == "yes" || save == "y") = true
  · rcases hins : insert_word insDb ⟨kw, a, desc⟩ with ⟨b, db2⟩
    cases b
    · simp [session, h0, h1, h2, h3, hins]
    · cases v <;> simp [session, h0, h1, h2, h3, hins]
  · simp [session, h0, h1, h2, h3]

/-- C8 amended witness: the badly cased but unique abbreviation ESC. -/
theorem casing_violations_accepted_witness :
    check_keyword_exists (some []) "Escape" = false ∧
    ("ESC" == "") = false ∧
    check_abbreviation_exists (some []) "ESC" = false ∧
    validCasing "ESC" = false ∧
    (Event.confirmPrompt ∈ (session (some []) (some []) (some []) [] "Escape"
        (AgentOutput.parsed (some "ESC") (some "d")) "yes" true).events ∧
    (session (some []) (some []) (some []) [] "Escape"
        (AgentOutput.parsed (some "ESC") (some "d")) "yes" true).outcome
      ≠ Outcome.abbreviationTaken) :=
  ⟨by decide, by decide, by decide, by decide,
    casing_violations_accepted (some []) (some []) (some []) [] "Escape" "ESC"
      (some "d") "yes" true (by decide) (by decide) (by decide) (by decide)⟩

/-- C10: the vector store write happens only after a successful dictionary
insert: whenever insert_word reports failure for the word the session would
persist, add_word_to_vectorstore is never invoked in that session and the
vector store is left unchanged. -/
theorem insert_failure_blocks_vectorstore
    (kwDb abbrDb insDb : Option (List Word)) (vstore : List Word)
    (kw a : String) (desc : Option String) (save : String) (v : Bool)
    (hins : (insert_word insDb ⟨kw, a, desc⟩).1 = false) :
    Event.vectorAdd ∉ (session kwDb abbrDb insDb vstore kw
        (AgentOutput.parsed (some a) desc) save v).events ∧
    (session kwDb abbrDb insDb vstore kw
        (AgentOutput.parsed (some a) desc) save v).finalVstore = vstore := by
  rcases hq : insert_word insDb ⟨kw, a, desc⟩ with ⟨b, db2⟩
  rw [hq] at hins
  simp only at hins
  subst hins
  by_cases h0 : check_keyword_exists kwDb kw = true
  · simp [session, h0]
  · by_cases h1 : (a == "") = true
    · simp [session, h0, h1]
    · by_cases h2 : check_abbreviation_exists abbrDb a = true
      · simp [session, h0, h1, h2]
      · by_cases h3 : (save == "yes" || save == "y") = true
        · simp [session, h0, h1, h2, h3, hq]
        · simp [session, h0, h1, h2, h3]

/-- C10 witness: insert fails because the store is unreachable at insert
time; the vector store keeps its prior single document. -/
theorem insert_failure_blocks_vectorstore_witness :
    (insert_word none ⟨"Closing", "Clsg", some "d"⟩).1 = false ∧
    (Event.vectorAdd ∉ (session (some []) (some []) none [⟨"Clear", "Clr", none⟩]
        "Closing" (AgentOutput.parsed (some "Clsg") (some "d")) "yes" true).events ∧
    (session (some []) (some []) none [⟨"Clear", "Clr", none⟩] "Closing"
        (AgentOutput.parsed (some "Clsg") (some "d")) "yes" true).finalVstore
      = [⟨"Clear", "Clr", none⟩]) :=
  ⟨by decide,
    insert_failure_blocks_vectorstore (some []) (some []) none [⟨"Clear", "Clr", none⟩]
      "Closing" "Clsg" (some "d") "yes" true (by decide)⟩

/-- PyType models the Python type annotations that get_sql_type in
database.py receives from the Word model: plain types, and optional for
Optional[X], whose get_origin is not None. -/
inductive PyType where
  | str
  | int
  | float
  | bool
  | bytes
  | optional (t : PyType)
deriving DecidableEq

/-- The get_origin branch of get_sql_type: for Optional[X] the actual type X
is taken from get_args. -/
def unwrap_optional : PyType → PyType
  | PyType.optional t => t
  | t => t

/-- type_mapping of get_sql_type in database.py. -/
def type_mapping : PyType → Option String
  | PyType.str => some "TEXT"
  | PyType.int => some "INTEGER"
  | PyType.float => some "REAL"
  | PyType.bool => some "INTEGER"
  | PyType.bytes => some "BLOB"
  | PyType.optional _ => none

/-- get_sql_type from database.py: unwrap Optional, then map with TEXT as
the dictionary default. -/
def get_sql_type (t : PyType) : String :=
  (type_mapping (unwrap_optional t)).getD "TEXT"

/-- The is_optional test of create_table_from_model: get_origin is not None
exactly for Optional annotations. -/
def is_optional_field : PyType → Bool
  | PyType.optional _ => true
  | _ => false

/-- One column definition as built by create_table_from_model in database.py:
name and SQL type, NOT NULL when the field is required, and UNIQUE when the
field name is keyword or abbreviation. -/
def column_def (field_name : String) (t : PyType) : String :=
  let c1 := field_name ++ " " ++ get_sql_type t
  let c2 := if !is_optional_field t then c1 ++ " NOT NULL" else c1
  if field_name == "keyword" || field_name == "abbreviation" then c2 ++ " UNIQUE" else c2

/-- Word.model_fields of models.py in declaration order, with their
annotations. -/
def word_model_fields : List (String × PyType) :=
  [("keyword", PyType.str), ("abbreviation", PyType.str),
    ("description", PyType.optional PyType.str)]

/-- The column list of the CREATE TABLE statement built by
create_table_from_model: the id primary key followed by one column per model
field. -/
def table_columns : List String :=
  "id INTEGER PRIMARY KEY AUTOINCREMENT" ::
    word_model_fields.map (fun p => column_def p.1 p.2)

/-- The storage invariant: no two rows of the words table share a keyword
and no two share an abbreviation. -/
def uniqueColumns (rows : List Word) : Prop :=
  rows.Pairwise (fun r s => r.keyword ≠ s.keyword ∧ r.abbreviation ≠ s.abbreviation)

/-- C6: the words table carries a UNIQUE constraint on the keyword column
and on the abbreviation column, and consequently every insert that the
constraint lets through preserves the invariant that no two persisted rows
share a keyword or share an abbreviation. -/
theorem storage_layer_uniqueness :
    table_columns = ["id INTEGER PRIMARY KEY AUTOINCREMENT",
      "keyword TEXT NOT NULL UNIQUE", "abbreviation TEXT NOT NULL UNIQUE",
      "description TEXT"] ∧
    ∀ (rows : List Word) (w : Word) (db2 : Option (List Word)),
      uniqueColumns rows → insert_word (some rows) w = (true, db2) →
      db2 = some (rows ++ [w]) ∧ uniqueColumns (rows ++ [w]) := by
  constructor
  · rfl
  · intro rows w db2 hu hins
    unfold insert_word at hins
    by_cases hdup : rows.any (fun r => r.keyword == w.keyword || r.abbreviation == w.abbreviation) = true
    · simp [hdup] at hins
    · rw [Bool.not_eq_true] at hdup
      simp only [hdup, Bool.false_eq_true, if_false, Prod.mk.injEq, true_and] at hins
      refine ⟨hins.symm, ?_⟩
      have hall : ∀ r ∈ rows, r.keyword ≠ w.keyword ∧ r.abbreviation ≠ w.abbreviation := by
        intro r hr
        have hfalse : (r.keyword == w.keyword || r.abbreviation == w.abbreviation) = false := by
          rcases List.any_eq_false.mp hdup r hr with h
          simpa using h
        simp only [Bool.or_eq_false_iff, beq_eq_false_iff_ne] at hfalse
        exact hfalse
      apply List.pairwise_append.mpr
      refine ⟨hu, List.pairwise_singleton _ _, ?_⟩
      intro r hr s hs
      have hsw : s = w := by simpa using hs
      subst hsw
      exact hall r hr

/-- C6 witness: inserting into the empty table succeeds and the invariant is
preserved. -/
theorem storage_layer_uniqueness_witness :
    uniqueColumns [] ∧
    insert_word (some []) ⟨"Closing", "Clsg", none⟩
      = (true, some [⟨"Closing", "Clsg", none⟩]) ∧
    ((some [(⟨"Closing", "Clsg", none⟩ : Word)] : Option (List Word))
        = some ([] ++ [⟨"Closing", "Clsg", none⟩]) ∧
      uniqueColumns ([] ++ [⟨"Closing", "Clsg", none⟩])) :=
  ⟨List.Pairwise.nil, by decide,
    storage_layer_uniqueness.2 [] ⟨"Closing", "Clsg", none⟩
      (some [⟨"Closing", "Clsg", none⟩]) List.Pairwise.nil (by decide)⟩

/-- str.lower of Python as used for the exit-sentinel test at main.py line
27, modelled on the character list of the string. -/
def pyLower (s : String) : List Char := s.data.map Char.toLower

/-- setup_database from database.py: when create_connection fails it prints
an error message and returns normally — it neither raises nor exits — and
the store stays unreachable; with a live connection it creates the words
table and populates it from Dictionary.json only when it is empty. -/
def setup_database (conn : Option (List Word)) (dictionary : List Word) :
    Option (List Word) :=
  match conn with
  | none => none
  | some rows => some (if 0 < rows.length then rows else dictionary)

/-- The data one iteration of the main.py while loop consumes: the keyword
typed at the input prompt, the agent invocation outcome, the confirm answer
and whether the vector store add succeeds. -/
structure IterInput where
  user_keyword : String
  agent : AgentOutput
  save_choice : String
  vectorOk : Bool

/-- The while True loop of main.py (lines 25 to 84) driven by a finite list
of iteration inputs. Returns some code when the program terminates within
the supplied inputs; the only exit is the sentinel test
user_keyword.lower() == exit, which breaks out of the loop and lets the
interpreter finish with code 0. Any other input runs one session and
continues with the stores the session left behind. -/
def mainRun : Option (List Word) → List Word → List IterInput → Option Nat
  | _, _, [] => none
  | db, vstore, it :: rest =>
    if pyLower it.user_keyword = "exit".data then some 0
    else
      mainRun (session db db db vstore it.user_keyword it.agent
          it.save_choice it.vectorOk).finalDb
        (session db db db vstore it.user_keyword it.agent
          it.save_choice it.vectorOk).finalVstore
        rest

/-- The entry point of main.py: setup_database, vector store creation, then
the input loop. conn is the connection available at startup, dictionary the
content of Dictionary.json, vstore0 the vector store found on disk. -/
def program (conn : Option (List Word)) (dictionary vstore0 : List Word)
    (iters : List IterInput) : Option Nat :=
  mainRun (setup_database conn dictionary) vstore0 iters

/-- C9 counterexample: with the store unreachable at startup (an
unrecoverable connection error in setup_database), the program does not exit
with a non-zero code: it proceeds into the input loop, and when the user
then types the exit sentinel it terminates normally with code 0. -/
theorem startup_store_error_no_nonzero_exit_cex :
    setup_database none [] = none ∧
    program none [] [] [⟨"exit", AgentOutput.invokeError, "", true⟩] = some 0 := by
  constructor
  · rfl
  · decide

/-- C9 amended: typing the exit sentinel (case-insensitive) terminates the
CLI normally with code 0 whatever the state of the store; an unrecoverable
store error at startup does not terminate the process — setup_database
returns normally with the store unreachable and the program continues into
the input loop. -/
theorem exit_sentinel_and_startup_error
    (conn : Option (List Word)) (dictionary vstore0 : List Word)
    (it : IterInput) (iters : List IterInput)
    (hx : pyLower it.user_keyword = "exit".data) :
    program conn dictionary vstore0 (it :: iters) = some 0 ∧
    ∀ iters2 : List IterInput,
      program none dictionary vstore0 iters2 = mainRun none vstore0 iters2 := by
  constructor
  · simp [program, mainRun, hx]
  · intro iters2
    rfl

/-- C9 amended witness: the sentinel typed as Exit with the store gone. -/
theorem exit_sentinel_and_startup_error_witness :
    pyLower "Exit" = "exit".data ∧
    (program none [] [] [⟨"Exit", AgentOutput.invokeError, "", true⟩] = some 0 ∧
    ∀ iters2 : List IterInput,
      program none [] [] iters2 = mainRun none [] iters2) :=
  ⟨by decide,
    exit_sentinel_and_startup_error none [] [] ⟨"Exit", AgentOutput.invokeError, "", true⟩
      [] (by decide)⟩

/-- Modelled from the spec: the generation retry loop of section 4.3 is not
code under src — it is carried out by the LLM agent through the external
langchain AgentExecutor, steered only by the prompt text in agents.py — so
the Candidate Generator result is modelled from the words of the spec:
unavailable covers GenerationUnavailable, candidate carries the proposed
(abbreviation, description, explanation) triple. -/
inductive GenResult where
  | unavailable
  | candidate (abbr desc expl : String)

/-- Modelled from the spec: the terminal outcomes of the controller state
machine of section 4.3. -/
inductive LoopOutcome where
  | alreadyExists
  | success (abbr desc expl : String)
  | giveUp (avoid : List String)

/-- Modelled from the spec: the GenerateCandidate, CheckAbbreviation and
Retry cycle of section 4.3. remaining is the number of generation attempts
the budget still allows (budget + 1 minus the attempt counter, since Retry
increments the counter and loops only while it stays at most the budget);
gen is the Candidate Generator applied to the current avoid set; abbrExists
is the Uniqueness Oracle on abbreviations. Returns the terminal outcome and
the number of generator invocations performed. -/
def gen_phase (gen : List String → GenResult) (abbrExists : String → Bool) :
    Nat → List String → LoopOutcome × Nat
  | 0, avoid => (LoopOutcome.giveUp avoid, 0)
  | n + 1, avoid =>
    match gen avoid with
    | GenResult.unavailable =>
      ((gen_phase gen abbrExists n avoid).1, (gen_phase gen abbrExists n avoid).2 + 1)
    | GenResult.candidate a d e =>
      if abbrExists a then
        ((gen_phase gen abbrExists n (avoid ++ [a])).1,
          (gen_phase gen abbrExists n (avoid ++ [a])).2 + 1)
      else
        (LoopOutcome.success a d e, 1)

/-- Modelled from the spec: one controller session of section 4.3.
CheckKeyword runs first; if the keyword exists the terminal outcome is
AlreadyExists with zero generator calls; otherwise the generation cycle
starts with an empty avoid set and a zero attempt counter, allowing at most
budget + 1 generator calls. -/
def run_controller (kwExists : Bool) (gen : List String → GenResult)
    (abbrExists : String → Bool) (budget : Nat) : LoopOutcome × Nat :=
  if kwExists then (LoopOutcome.alreadyExists, 0)
  else gen_phase gen abbrExists (budget + 1) []

theorem gen_phase_calls_le (gen : List String → GenResult)
    (abbrExists : String → Bool) :
    ∀ (n : Nat) (avoid : List String), (gen_phase gen abbrExists n avoid).2 ≤ n := by
  intro n
  induction n with
  | zero => intro avoid; simp [gen_phase]
  | succ k ih =>
    intro avoid
    rcases hg : gen avoid with _ | ⟨a, d, e⟩
    · have := ih avoid
      simp [gen_phase, hg]
      omega
    · by_cases he : abbrExists a = true
      · have := ih (avoid ++ [a])
        simp [gen_phase, hg, he]
        omega
      · simp [gen_phase, hg, he]

/-- C3: with a finite retry budget of at least one, the controller performs
at most budget + 1 generator invocations in a session, and the run is total,
ending in one of the terminal outcomes AlreadyExists, Success or GiveUp. -/
theorem generator_calls_bounded (kwExists : Bool) (gen : List String → GenResult)
    (abbrExists : String → Bool) (budget : Nat) (_h : 1 ≤ budget) :
    (run_controller kwExists gen abbrExists budget).2 ≤ budget + 1 ∧
    ((run_controller kwExists gen abbrExists budget).1 = LoopOutcome.alreadyExists ∨
      (∃ a d e, (run_controller kwExists gen abbrExists budget).1
        = LoopOutcome.success a d e) ∨
      ∃ av, (run_controller kwExists gen abbrExists budget).1
        = LoopOutcome.giveUp av) := by
  constructor
  · unfold run_controller
    by_cases hk : kwExists = true
    · simp [hk]
    · simp only [hk, Bool.false_eq_true, if_false]
      exact gen_phase_calls_le gen abbrExists (budget + 1) []
  · rcases ho : (run_controller kwExists gen abbrExists budget).1 with _ | ⟨a, d, e⟩ | av
    · exact Or.inl rfl
    · exact Or.inr (Or.inl ⟨a, d, e, rfl⟩)
    · exact Or.inr (Or.inr ⟨av, rfl⟩)

/-- A generator that always proposes the same candidate, for the C3 witness. -/
def constantGen : List String → GenResult :=
  fun _ => GenResult.candidate "Clsg" "d" "e"

/-- An oracle over the empty store, for the C3 witness. -/
def emptyOracle : String → Bool := fun _ => false

/-- C3 witness: budget one against the empty store. -/
theorem generator_calls_bounded_witness :
    1 ≤ 1 ∧
    ((run_controller false constantGen emptyOracle 1).2 ≤ 1 + 1 ∧
    ((run_controller false constantGen emptyOracle 1).1 = LoopOutcome.alreadyExists ∨
      (∃ a d e, (run_controller false constantGen emptyOracle 1).1
        = LoopOutcome.success a d e) ∨
      ∃ av, (run_controller false constantGen emptyOracle 1).1
        = LoopOutcome.giveUp av)) :=
  ⟨Nat.le_refl 1, generator_calls_bounded false constantGen emptyOracle 1 (Nat.le_refl 1)⟩
